/-
Verification of the DeFAI agent-engine scheduler/executor core.

Shallow embedding of:
  - agent-engine/core/agent_manager.py   (AgentManager and AgentState)
  - agent-engine/core/strategy_engine.py (StrategyEngine and its executors)
  - agent-engine/utils/ml_interface.py   (MLInterface.get_strategy_decision
    and its pipeline: _call_ai_service, which absorbs predictor HTTP failures
    itself, _enhance_decision with its helper scorers, and the safe default
    decision returned only when a non-predictor step of the body raises)

Modelling conventions:
  - time is a Nat counted in minutes; datetime.utcnow() during one operation
    is modelled as a single instant `now` passed to that operation;
  - Python floats for profits / amounts / prices become exact rationals;
  - Python dicts that carry decisions and results become structures whose
    fields are the keys the embedded code actually reads; a missing key is
    `none`; Python truthiness of strings and numbers is modelled explicitly
    (empty string and 0 are falsy);
  - external collaborators (Solana client, DB, AI service) are parameters:
    request-dependent response functions, plus Except-valued outcomes where
    the code lets an exception escape into a caller's handler;
  - each call made to a Solana-client operation (the execution provider) is
    counted; executors return their result dict together with that count;
  - result-dict fields that no code path of the scheduler core reads back
    (txid, input/output amounts, rewards, protocol echo, profit_percent)
    are elided from the embedded result structure.
-/
import Mathlib

namespace DeFAI

/-- Agent lifecycle status, from models/agent.py AgentStatus. -/
inductive AgentStatus where
  | created
  | active
  | paused
  | stopped
  | error
deriving DecidableEq, Repr

/-- Strategy families, from models/strategy.py StrategyType. -/
inductive StrategyType where
  | swap
  | lending
  | liquidity_provision
  | yield_farming
  | arbitrage
  | multi_hop
deriving DecidableEq, Repr

/-- DeFi protocols, from models/strategy.py Protocol. -/
inductive Protocol where
  | jupiter
  | marginfi
  | orca
  | raydium
  | kamino
  | solend
deriving DecidableEq, Repr

/-- Result dict returned by a Solana-client transaction call
(success flag and the output amount the swap path reads back). -/
structure TxResult where
  success : Bool
  output_amount : Option ℚ := none
deriving DecidableEq, Repr

/-- Market data as consumed by the core: the price mapping with the dict-get
default 0 built in (market_data.get('prices', \x7b\x7d).get(tok, 0)), plus the
entry count of the prices dict (len(market_data.get('prices', \x7b\x7d)), read
only by the basic-swap branch of MLInterface._determine_strategy_type). -/
structure MarketData where
  prices : String → ℚ
  prices_count : Nat := 0

/-- The fields of an ML decision dict (or of a multi-hop step dict) that the
embedded code reads.  A missing key is `none`.  amount_auto records that the
amount key holds the string "auto" instead of a number — the source puts it
only in the lending step of the ML-generated multi-hop decision ("use output
from previous step"); that string is truthy, which the executors' validation
respects via truthyAmount. -/
structure DecisionFields where
  strategy_type : Option StrategyType := none
  should_execute : Bool := false
  next_check_minutes : Option Nat := none
  from_token : Option String := none
  to_token : Option String := none
  amount : Option ℚ := none
  amount_auto : Bool := false
  slippage : Option ℚ := none
  action : Option String := none
  token : Option String := none
  protocol : Option Protocol := none
  pool_id : Option String := none
  token_a : Option String := none
  token_b : Option String := none
  amount_a : Option ℚ := none
  amount_b : Option ℚ := none
  farm_id : Option String := none
deriving DecidableEq

/-- A decision (or a multi-hop step, which is passed to the same executors):
its flat fields plus the list of sub-steps (decision.get('steps', [])). -/
inductive Decision where
  | mk (fields : DecisionFields) (steps : List Decision)

/-- Field part of a decision. -/
def Decision.fields : Decision → DecisionFields
  | .mk f _ => f

/-- Sub-steps of a decision (empty when the 'steps' key is absent). -/
def Decision.steps : Decision → List Decision
  | .mk _ s => s

/-- The keys of an execution-result dict that the scheduler core reads back
(success, profit, error, and the multi-hop counters). -/
structure ExecFields where
  success : Bool
  profit : Option ℚ := none
  error : Option String := none
  completed_steps : Option Nat := none
  total_steps : Option Nat := none
deriving DecidableEq

/-- An execution-result dict; multi-hop results also carry the list of
per-step result dicts (steps_results). -/
inductive ExecResult where
  | mk (fields : ExecFields) (steps_results : List ExecResult)

/-- Field part of an execution result. -/
def ExecResult.fields : ExecResult → ExecFields
  | .mk f _ => f

/-- The steps_results list of an execution result (empty for single-action
results, which carry no such key). -/
def ExecResult.steps_results : ExecResult → List ExecResult
  | .mk _ s => s

/-- result.get('success', False). -/
def ExecResult.successB (r : ExecResult) : Bool := r.fields.success

/-- result.get('profit', 0): the profit key with the dict-get default. -/
def ExecResult.profitD (r : ExecResult) : ℚ := r.fields.profit.getD 0

/-- The external Solana client (core/solana_client.py) as seen by the
strategy engine: request-dependent responses for each provider operation.
get_jupiter_route takes input mint, output mint, amount, slippage and
returns the route (none when no route is found). -/
structure SolanaEnv where
  get_jupiter_route : String → String → ℚ → ℚ → Option String
  execute_jupiter_swap : String → TxResult
  execute_lending_action : Protocol → String → String → ℚ → TxResult
  execute_liquidity_action : Protocol → String → String → Option String → Option String → ℚ → ℚ → TxResult
  execute_yield_farm_action : Protocol → String → String → Option String → ℚ → TxResult

/-- Python truthiness of an optional string (missing key or '' is falsy). -/
def truthyS : Option String → Bool
  | none => false
  | some s => s ≠ ""

/-- Python truthiness of an optional number (missing key or 0 is falsy). -/
def truthyQ : Option ℚ → Bool
  | none => false
  | some q => q ≠ 0

/-- Python truthiness of a decision's amount key: a nonzero number or the
string "auto" is truthy. -/
def truthyAmount (f : DecisionFields) : Bool :=
  truthyQ f.amount || f.amount_auto

/-- StrategyEngine._calculate_swap_profit: value difference at the market
prices, with profit_percent; returns (0, 0) when either price is falsy. -/
def calculate_swap_profit (from_token to_token : String) (input_amount output_amount : ℚ)
    (md : MarketData) : ℚ × ℚ :=
  let input_price := md.prices from_token
  let output_price := md.prices to_token
  if input_price = 0 ∨ output_price = 0 then (0, 0)
  else
    let input_value := input_amount * input_price
    let output_value := output_amount * output_price
    let profit := output_value - input_value
    let profit_percent := if input_value ≠ 0 then profit / input_value * 100 else 0
    (profit, profit_percent)

/-- Short-hand for a failure result dict carrying only success=False and an
error message. -/
def failResult (msg : String) : ExecResult :=
  ExecResult.mk { success := false, error := some msg } []

/-- StrategyEngine._execute_swap_strategy: validate params, fetch a Jupiter
route, execute the swap, report success and the computed profit.  The Nat
counts provider (Solana-client) calls made. -/
def execSwap (env : SolanaEnv) (md : MarketData) (f : DecisionFields) : ExecResult × Nat :=
  if truthyS f.from_token && truthyS f.to_token && truthyAmount f then
    let ft := f.from_token.getD ""
    let tt := f.to_token.getD ""
    let am := f.amount.getD 0
    let sl := f.slippage.getD (5 / 1000)
    match env.get_jupiter_route ft tt am sl with
    | none => (failResult "No swap route found", 1)
    | some route =>
      let tx := env.execute_jupiter_swap route
      let pInfo := calculate_swap_profit ft tt am (tx.output_amount.getD 0) md
      (ExecResult.mk { success := tx.success, profit := some pInfo.1 } [], 2)
  else (failResult "Missing required parameters", 0)

/-- StrategyEngine._execute_lending_strategy: validate params and execute the
lending action; the result dict carries no profit key.  When the amount key
holds the string "auto" it passes validation; the numeric placeholder 0 is
then forwarded to the provider, whose response function cannot observe the
distinction. -/
def execLending (env : SolanaEnv) (f : DecisionFields) : ExecResult × Nat :=
  if truthyS f.action && truthyS f.token && truthyAmount f then
    let tx := env.execute_lending_action (f.protocol.getD .marginfi) (f.action.getD "")
        (f.token.getD "") (f.amount.getD 0)
    (ExecResult.mk { success := tx.success } [], 1)
  else (failResult "Missing required parameters", 0)

/-- StrategyEngine._execute_liquidity_strategy: validate params (token_a and
token_b only required for the add action) and execute; no profit key. -/
def execLiquidity (env : SolanaEnv) (f : DecisionFields) : ExecResult × Nat :=
  if !(truthyS f.action && truthyS f.pool_id) ||
      (f.action == some "add" && !(truthyS f.token_a && truthyS f.token_b)) then
    (failResult "Missing required parameters", 0)
  else
    let tx := env.execute_liquidity_action (f.protocol.getD .orca) (f.action.getD "")
        (f.pool_id.getD "") f.token_a f.token_b (f.amount_a.getD 0) (f.amount_b.getD 0)
    (ExecResult.mk { success := tx.success } [], 1)

/-- StrategyEngine._execute_yield_farming_strategy: validate params (token and
amount required for stake/unstake) and execute; no profit key. -/
def execYield (env : SolanaEnv) (f : DecisionFields) : ExecResult × Nat :=
  if !(truthyS f.action && truthyS f.farm_id) then
    (failResult "Missing required parameters", 0)
  else
    let amount := f.amount.getD 0
    if (f.action == some "stake" || f.action == some "unstake") &&
        !(truthyS f.token && truthyAmount f) then
      (failResult "Missing token or amount for stake/unstake", 0)
    else
      let tx := env.execute_yield_farm_action (f.protocol.getD .raydium) (f.action.getD "")
          (f.farm_id.getD "") f.token amount
      (ExecResult.mk { success := tx.success } [], 1)

/-- The keys of StrategyEngine.strategy_registry (arbitrage is not
registered). -/
def registered_types : List StrategyType :=
  [.swap, .lending, .liquidity_provision, .yield_farming, .multi_hop]

/-- Accumulator of the multi-hop step loop: appended step results, summed
profit, the all_successful flag, the provider calls made, and how many steps
were dispatched to an executor. -/
structure MultiHopAcc where
  results : List ExecResult
  total_profit : ℚ
  all_successful : Bool
  provider_calls : Nat
  dispatched : Nat

mutual

/-- Dispatch one decision to the registered executor for strategy type t
(the body of strategy_registry[t](agent_id, decision, market_data)).
Only called for registered types; the arbitrage branch is unreachable. -/
def execute_by_type (env : SolanaEnv) (md : MarketData) (t : StrategyType) (d : Decision) :
    ExecResult × Nat :=
  match d with
  | .mk f steps =>
    match t with
    | .swap => execSwap env md f
    | .lending => execLending env f
    | .liquidity_provision => execLiquidity env f
    | .yield_farming => execYield env f
    | .multi_hop => execute_multi_hop env md steps
    | .arbitrage => (failResult "Unknown strategy type", 0)
termination_by 2 * sizeOf d

/-- StrategyEngine._execute_multi_hop_strategy: empty step list fails, else
run the sequential loop and assemble the result dict (success, steps_results,
completed_steps = len(results), total_steps, profit). -/
def execute_multi_hop (env : SolanaEnv) (md : MarketData) (steps : List Decision) :
    ExecResult × Nat :=
  if steps.isEmpty then (failResult "No steps provided for multi-hop strategy", 0)
  else
    let acc := multi_hop_loop env md steps
    (ExecResult.mk
      { success := acc.all_successful, profit := some acc.total_profit,
        completed_steps := some acc.results.length, total_steps := some steps.length }
      acc.results, acc.provider_calls)
termination_by 2 * sizeOf steps + 1

/-- The sequential for-loop over multi-hop steps: a step with a missing or
unregistered strategy_type aborts before dispatch; a dispatched step is
appended to results; a failed step aborts after being appended; a successful
step adds its profit (result.get('profit', 0)) and the loop continues. -/
def multi_hop_loop (env : SolanaEnv) (md : MarketData) (l : List Decision) : MultiHopAcc :=
  match l with
  | [] => ⟨[], 0, true, 0, 0⟩
  | step :: rest =>
    match step.fields.strategy_type with
    | none => ⟨[], 0, false, 0, 0⟩
    | some t =>
      if t ∈ registered_types then
        let r := execute_by_type env md t step
        if r.1.successB then
          let acc := multi_hop_loop env md rest
          ⟨r.1 :: acc.results, r.1.profitD + acc.total_profit, acc.all_successful,
            r.2 + acc.provider_calls, 1 + acc.dispatched⟩
        else ⟨[r.1], 0, false, r.2, 1⟩
      else ⟨[], 0, false, 0, 0⟩
termination_by 2 * sizeOf l

end

/-- StrategyEngine.execute_strategy: reject a missing or unregistered
strategy type, else dispatch to the registered executor and record the
StrategyExecution row.  A failing save (execution.save()) is caught inside
this method and converted to a failure dict with profit 0; the provider calls
already made are unaffected. -/
def execute_strategy (env : SolanaEnv) (save_ok : Bool) (md : MarketData) (d : Decision) :
    ExecResult × Nat :=
  match d.fields.strategy_type with
  | none => (failResult "Unknown strategy type", 0)
  | some t =>
    if t ∈ registered_types then
      let r := execute_by_type env md t d
      if save_ok then r
      else (ExecResult.mk { success := false, profit := some 0, error := some "save failed" } [], r.2)
    else (failResult "Unknown strategy type", 0)

/-- MLInterface._get_safe_default_decision: strategy_type swap, action hold,
should_execute false, next_check_minutes 60.  Returned only when a
non-predictor step of get_strategy_decision's body raises (see
get_strategy_decision below). -/
def safe_default_decision : Decision :=
  Decision.mk
    { strategy_type := some .swap, should_execute := false,
      next_check_minutes := some 60, action := some "hold" } []

/-- The agent's strategy_config dict, restricted to the keys the ML interface
reads back (risk_level, max_investment, min_profit_threshold; stop_loss and
the constraints block built from them are never read by the scheduler core
and are elided).  A missing key is `none`. -/
structure AgentConfig where
  risk_level : Option String := none
  max_investment : Option ℚ := none
  min_profit_threshold : Option ℚ := none
deriving DecidableEq

/-- The ai_input feature dict built by MLInterface._prepare_ai_input,
restricted to the keys read back by _enhance_decision and its helpers
(portfolio_value, sol_balance, risk_tolerance, protocols_available).  The
empty dict — what _enhance_decision sees after a failed predictor call —
is the all-none record. -/
structure Features where
  portfolio_value : Option ℚ := none
  sol_balance : Option ℚ := none
  risk_tolerance : Option ℚ := none
  protocols_available : Option (List String) := none
deriving DecidableEq

/-- The raw-decision dict _call_ai_service hands to _enhance_decision: the
predicted yield, and the prepared features attached under input_features
only when the HTTP call succeeded. -/
structure RawDecision where
  pred : ℚ
  input_features : Option Features := none
deriving DecidableEq

/-- Python int() applied to a float: truncation toward zero. -/
def pyInt (q : ℚ) : ℤ :=
  if 0 ≤ q then ⌊q⌋ else ⌈q⌉

/-- The SOL mint address the generated decisions use. -/
def solMint : String := "So11111111111111111111111111111111111111112"

/-- The USDC mint address the generated decisions use. -/
def usdcMint : String := "EPjFWdd5AufqSSqeM2qN1xzybapC8G4wEGGkZwyTDt1v"

/-- MLInterface._risk_level_to_score: lowercased lookup with default 0.5. -/
def risk_level_to_score (risk_level : String) : ℚ :=
  let s := risk_level.toLower
  if s = "low" then 1 / 5
  else if s = "medium" then 1 / 2
  else if s = "high" then 4 / 5
  else 1 / 2

/-- MLInterface._calculate_confidence: base min(pred * 10, 0.8), plus 0.1
for portfolio_value over 100 and 0.1 for at least three available
protocols, capped at 0.95. -/
def calculate_confidence (predicted_yield : ℚ) (features : Features) : ℚ :=
  let base0 := min (predicted_yield * 10) (4 / 5)
  let base1 := if features.portfolio_value.getD 0 > 100 then base0 + 1 / 10 else base0
  let base2 :=
    if (features.protocols_available.getD []).length ≥ 3 then base1 + 1 / 10 else base1
  min base2 (19 / 20)

/-- MLInterface._assess_strategy_risk: per-family base risk (the dict covers
every family, so its 0.5 default is unreachable) plus an amount-proportional
term, capped at 1.  ℚ division by zero is 0 where Python would raise
ZeroDivisionError; that corner needs max_investment = 0, which the Agent
model excludes (max_investment has a gt=0 constraint). -/
def assess_strategy_risk (t : StrategyType) (params : DecisionFields)
    (cfg : AgentConfig) : ℚ :=
  let base : ℚ :=
    match t with
    | .swap => 1 / 5
    | .lending => 3 / 10
    | .liquidity_provision => 1 / 2
    | .yield_farming => 3 / 5
    | .arbitrage => 7 / 10
    | .multi_hop => 4 / 5
  let amount_risk := min (params.amount.getD 0 / cfg.max_investment.getD 1000) (3 / 10)
  min (base + amount_risk) 1

/-- MLInterface._determine_execution_timing: minutes until the next check;
the risk argument is accepted but unread, as in the source. -/
def determine_execution_timing (predicted_yield confidence _risk_score : ℚ) : Nat :=
  if predicted_yield > 1 / 20 ∧ confidence > 4 / 5 then 1
  else if predicted_yield > 1 / 50 ∧ confidence > 3 / 5 then 5
  else if predicted_yield > 1 / 100 then 15
  else 30

/-- MLInterface._should_execute_strategy: require the minimum yield, at
least 0.5 confidence, and risk within tolerance plus 0.2. -/
def should_execute_strategy (predicted_yield confidence risk_score : ℚ)
    (cfg : AgentConfig) : Bool :=
  let min_yield := cfg.min_profit_threshold.getD (1 / 100)
  let risk_tolerance := risk_level_to_score (cfg.risk_level.getD "medium")
  if predicted_yield < min_yield then false
  else if confidence < 1 / 2 then false
  else if risk_score > risk_tolerance + 1 / 5 then false
  else true

/-- MLInterface._determine_strategy_type: pick the strategy family and its
parameter dict from the predicted yield, the feature dict (dict-get defaults
0 / 0 / 0.5) and the market data; the agent_config parameter is accepted but
unread, as in the source.  Parameter keys the scheduler never reads back
(expected_apy, reason, next_evaluation) are elided; the generated multi-hop
lending step's amount key holds the string "auto", recorded as amount_auto. -/
def determine_strategy_type (predicted_yield : ℚ) (features : Features)
    (md : MarketData) (_cfg : AgentConfig) :
    StrategyType × DecisionFields × List Decision :=
  let portfolio_value := features.portfolio_value.getD 0
  let sol_balance := features.sol_balance.getD 0
  let risk_tolerance := features.risk_tolerance.getD (1 / 2)
  if predicted_yield > 1 / 20 ∧ risk_tolerance > 7 / 10 then
    (.multi_hop, {},
      [Decision.mk
        { strategy_type := some .swap, from_token := some solMint,
          to_token := some usdcMint,
          amount := some ((pyInt (sol_balance * (1 / 2) * 1000000000) : ℤ) : ℚ),
          slippage := some (1 / 100) } [],
       Decision.mk
        { strategy_type := some .lending, action := some "deposit",
          token := some usdcMint, protocol := some .marginfi,
          amount_auto := true } []])
  else if predicted_yield > 1 / 50 ∧ sol_balance > 5 then
    (.yield_farming,
      { action := some "stake", farm_id := some "RAY-SOL", token := some solMint,
        amount := some ((pyInt (sol_balance * (3 / 10) * 1000000000) : ℤ) : ℚ),
        protocol := some .raydium }, [])
  else if predicted_yield > 1 / 100 ∧ portfolio_value > 100 then
    (.lending,
      { action := some "deposit", token := some solMint,
        amount := some
          ((pyInt (min (sol_balance * (2 / 5)) (portfolio_value * (1 / 5)) * 1000000000) : ℤ) : ℚ),
        protocol := some .marginfi }, [])
  else if sol_balance > 1 ∧ md.prices_count ≥ 2 then
    (.swap,
      { from_token := some solMint, to_token := some usdcMint,
        amount := some ((pyInt (sol_balance * (1 / 10) * 1000000000) : ℤ) : ℚ),
        slippage := some (5 / 1000) }, [])
  else
    (.swap, { action := some "hold" }, [])

/-- MLInterface._call_ai_service: the /predict HTTP call.  A 200 response
yields its pred with the prepared features attached as input_features; a
timeout, connection error or non-200 status is caught HERE — this method
never raises — and yields the safe response pred 0.005 with no
input_features key. -/
def call_ai_service (http : Except Unit ℚ) (ai_input : Features) : RawDecision :=
  match http with
  | .ok pred => { pred := pred, input_features := some ai_input }
  | .error _ => { pred := 1 / 200, input_features := none }

/-- MLInterface._enhance_decision: turn the raw prediction into the decision
dict — select the strategy family and parameters, compute confidence, risk
and timing, and attach should_execute and next_check_minutes.  After a
failed predictor call input_features is absent, so the helpers run on the
empty feature dict.  Decision keys the scheduler never reads back
(predicted_yield, confidence, risk_score, max_retry_attempts, the metadata
and constraints blocks) are elided. -/
def enhance_decision (raw : RawDecision) (cfg : AgentConfig) (md : MarketData) : Decision :=
  let predicted_yield := raw.pred
  let input_features := raw.input_features.getD {}
  let sel := determine_strategy_type predicted_yield input_features md cfg
  let confidence := calculate_confidence predicted_yield input_features
  let risk_score := assess_strategy_risk sel.1 sel.2.1 cfg
  let timing := determine_execution_timing predicted_yield confidence risk_score
  Decision.mk
    { sel.2.1 with
      strategy_type := some sel.1
      should_execute := should_execute_strategy predicted_yield confidence risk_score cfg
      next_check_minutes := some timing }
    sel.2.2

/-- MLInterface.get_strategy_decision on a cold cache.  The internal,
non-predictor work of the body (feature preparation, decision enhancement,
caching) is abstracted as one Except outcome: ok with the prepared features
when it all completes, error when any of it raises — only then does the
outer except return the safe default.  The predictor HTTP call's outcome is
the separate http argument: its failures are absorbed inside
call_ai_service and still produce an enhanced decision.  (The source
interleaves these — preparation before the call, enhancement after — but
only the returned decision is observable to the scheduler.) -/
def get_strategy_decision (internal : Except Unit Features) (http : Except Unit ℚ)
    (cfg : AgentConfig) (md : MarketData) : Decision :=
  match internal with
  | .error _ => safe_default_decision
  | .ok feats => enhance_decision (call_ai_service http feats) cfg md

/-- MLInterface.get_strategy_decision as the cycle consumes it.  The method
never raises; `.ok d` means its body completed and returned the pipeline's
decision d (get_strategy_decision above computes d from the prepared
features, the predictor-call outcome and the config; note that a predictor
HTTP failure still ends in `.ok` of an enhanced hold decision, never here),
while `.error` means a non-predictor step of the body raised, so the outer
except returns the safe default. -/
def ml_get_strategy_decision (ai_response : Except Unit Decision) : Decision :=
  match ai_response with
  | .ok d => d
  | .error _ => safe_default_decision

/-- In-memory runtime state of one agent (AgentState in agent_manager.py):
times are minutes, positions are the current_positions dict as an association
list. -/
structure AgentState where
  agent_id : String
  status : AgentStatus
  last_execution : Option Nat := none
  next_execution : Option Nat := none
  execution_count : Nat := 0
  total_profit : ℚ := 0
  current_positions : List (String × ℚ) := []
deriving DecidableEq

/-- The AgentManager.active_agents dict. -/
def AgentMap : Type := String → Option AgentState

/-- Point update of the active_agents dict (self.active_agents[id] = st). -/
def update_agent (m : AgentMap) (id : String) (st : AgentState) : AgentMap :=
  fun i => if i = id then some st else m i

/-- AgentManager.create_agent: create the agent wallet (a failure here
re-raises before any state is touched), install a fresh AgentState with
status created and next_execution one minute out, then persist the agent
record (a failure there re-raises, but the in-memory state was already
installed).  No check is made for an already-registered agent id. -/
def create_agent (wallet : Except Unit String) (save_ok : Bool) (now : Nat)
    (m : AgentMap) (id : String) : AgentMap × Except Unit AgentState :=
  match wallet with
  | .error _ => (m, .error ())
  | .ok _ =>
    let st : AgentState := { agent_id := id, status := .created, next_execution := some (now + 1) }
    let m1 := update_agent m id st
    if save_ok then (m1, .ok st) else (m1, .error ())

/-- AgentManager.activate_agent: unknown id returns false; otherwise set
status active and next_execution one minute out. -/
def activate_agent (now : Nat) (m : AgentMap) (id : String) : AgentMap × Bool :=
  match m id with
  | none => (m, false)
  | some st =>
    (update_agent m id { st with status := .active, next_execution := some (now + 1) }, true)

/-- AgentManager.pause_agent: unknown id returns false; otherwise set status
paused unconditionally, whatever the current status. -/
def pause_agent (m : AgentMap) (id : String) : AgentMap × Bool :=
  match m id with
  | none => (m, false)
  | some st => (update_agent m id { st with status := .paused }, true)

/-- AgentManager.stop_agent: unknown id returns false; otherwise close every
open position (strategy_engine.close_position per current_positions entry —
the returned list records those invocations in order), empty the positions
dict, and set status stopped. -/
def stop_agent (m : AgentMap) (id : String) : AgentMap × Bool × List String :=
  match m id with
  | none => (m, false, [])
  | some st =>
    let closed := st.current_positions.map Prod.fst
    (update_agent m id { st with current_positions := [], status := .stopped }, true, closed)

/-- External outcomes one execution cycle of AgentManager._execute_agent_strategy
depends on.  agent_get is the Agent.get DB fetch: the one call in the cycle
body whose exception reaches the method's outer handler (market-data
gathering, the ML interface and execute_strategy each catch internally and
never raise).  ai_response is the outcome of the get_strategy_decision call:
`.ok d` — its body completed and returned decision d (for a failed predictor
HTTP call this is still `.ok`, of the enhanced hold decision computed by
get_strategy_decision); `.error` — a non-predictor step of its body raised,
so the safe default is used.  market_data is what _gather_market_data
returns (its own failures yield an empty dict, i.e. all-zero prices).
save_ok is the StrategyExecution save inside execute_strategy. -/
structure CycleEnv where
  agent_get : Except Unit Unit
  ai_response : Except Unit Decision
  market_data : MarketData
  solana : SolanaEnv
  save_ok : Bool

/-- AgentManager._execute_agent_strategy for a registered agent: fetch the
agent record, gather market data, get the ML decision, execute it (the
decision's should_execute flag is never consulted), then update the runtime
state: last_execution := now, execution_count + 1, total_profit +=
result.get('profit', 0), next_execution := now + next_check_minutes (default
5).  An unhandled fault instead leaves the state untouched except
next_execution := now + 30.  Returns the new map and the number of
execution-provider calls made.  The run loop only dispatches registered ids;
an unknown id is a no-op here. -/
def execute_agent_strategy (env : CycleEnv) (now : Nat) (m : AgentMap) (id : String) :
    AgentMap × Nat :=
  match m id with
  | none => (m, 0)
  | some st =>
    match env.agent_get with
    | .error _ => (update_agent m id { st with next_execution := some (now + 30) }, 0)
    | .ok _ =>
      let d := ml_get_strategy_decision env.ai_response
      let r := execute_strategy env.solana env.save_ok env.market_data d
      let st2 : AgentState :=
        { st with
          last_execution := some now,
          execution_count := st.execution_count + 1,
          total_profit := st.total_profit + r.1.profitD,
          next_execution := some (now + d.fields.next_check_minutes.getD 5) }
      (update_agent m id st2, r.2)

/-- A Solana client whose every operation fails to produce anything useful:
no route, failing transactions. -/
def solNull : SolanaEnv :=
  { get_jupiter_route := fun _ _ _ _ => none,
    execute_jupiter_swap := fun _ => { success := false },
    execute_lending_action := fun _ _ _ _ => { success := false },
    execute_liquidity_action := fun _ _ _ _ _ _ _ => { success := false },
    execute_yield_farm_action := fun _ _ _ _ _ => { success := false } }
/-- Market data pricing every token at 1. -/
def mdOne : MarketData := { prices := fun _ => 1 }

/-- A decision the predictor could emit: an executable swap (valid tokens and
amount, a route will exist) whose should_execute flag is false, suggesting a
re-check in 7 minutes. -/
def dSwapNoExec : Decision :=
  Decision.mk
    { strategy_type := some .swap, should_execute := false, next_check_minutes := some 7,
      from_token := some "A", to_token := some "B", amount := some 10 } []

/-- A Solana client that finds a route for every swap and executes it
successfully with output amount 12. -/
def solRoute : SolanaEnv :=
  { solNull with
    get_jupiter_route := fun _ _ _ _ => some "r",
    execute_jupiter_swap := fun _ => { success := true, output_amount := some 12 } }

/-- Runtime state of an active agent that has never executed. -/
def stA1 : AgentState := { agent_id := "A1", status := .active, next_execution := some 1 }

/-- An active_agents table holding only agent A1. -/
def mapA1 : AgentMap := fun i => if i = "A1" then some stA1 else none

/-- Cycle environment for C1: healthy DB and predictor, the predictor
returning dSwapNoExec. -/
def envNoExec : CycleEnv :=
  { agent_get := .ok (), ai_response := .ok dSwapNoExec, market_data := mdOne,
    solana := solRoute, save_ok := true }

/-- C1: a decision with should_execute = false never invokes the execution
provider but still updates next_execution_time.  REFUTED in its first half:
_execute_agent_strategy never consults should_execute — with an executable
swap decision carrying should_execute = false, the cycle makes two
execution-provider calls (get_jupiter_route and execute_jupiter_swap).  The
second half holds: next_execution is still set to now + next_check_minutes
(100 + 7 here). -/
theorem C1_provider_invoked_despite_should_execute_false :
    dSwapNoExec.fields.should_execute = false ∧
    (execute_agent_strategy envNoExec 100 mapA1 "A1").2 = 2 ∧
    ((execute_agent_strategy envNoExec 100 mapA1 "A1").1 "A1").map AgentState.next_execution
      = some (some 107) := by
  refine ⟨rfl, ?_, ?_⟩ <;>
    simp [execute_agent_strategy, envNoExec, mapA1, stA1, ml_get_strategy_decision,
      execute_strategy, execute_by_type, execSwap, dSwapNoExec, Decision.fields,
      registered_types, truthyS, truthyQ, truthyAmount, solRoute, solNull, mdOne, update_agent,
      calculate_swap_profit, ExecResult.profitD, ExecResult.fields, failResult]

/-- Cycle environment whose Agent.get DB fetch raises: the cycle ends in the
unhandled-fault handler. -/
def envFault : CycleEnv :=
  { agent_get := .error (), ai_response := .ok dSwapNoExec, market_data := mdOne,
    solana := solRoute, save_ok := true }

/-- A strategy_config dict with no keys: every dict-get default applies. -/
def cfgEmpty : AgentConfig := {}

/-- Cycle environment whose predictor call fails (a timeout or error inside
the /predict HTTP call): _call_ai_service absorbs it, and the interface
returns the enhanced hold decision computed by the pipeline from pred 0.005
and the empty feature dict — still an `.ok` outcome of get_strategy_decision
(here with empty prepared features and the empty config). -/
def envMLFail : CycleEnv :=
  { agent_get := .ok (),
    ai_response := .ok (get_strategy_decision (.ok {}) (.error ()) cfgEmpty mdOne),
    market_data := mdOne, solana := solRoute, save_ok := true }

/-- C2 counterexample: a cycle that ends in an unhandled fault (the Agent.get
fetch raises) completes with execution_count unchanged at 0, not incremented
to 1 as the claim requires of every completed cycle. -/
theorem C2_counterexample_fault_cycle_leaves_count :
    (mapA1 "A1").map AgentState.execution_count = some 0 ∧
    ((execute_agent_strategy envFault 100 mapA1 "A1").1 "A1").map AgentState.execution_count
      = some 0 ∧
    ((execute_agent_strategy envFault 100 mapA1 "A1").1 "A1").map AgentState.execution_count
      ≠ some (0 + 1) := by
  refine ⟨rfl, ?_, ?_⟩ <;>
    simp [execute_agent_strategy, envFault, mapA1, stA1, update_agent]

/-- C2 amended: execution_count increases by exactly one per cycle that
completes without an unhandled fault — whatever the strategy execution
reports, success or failure — while a cycle ending in an unhandled fault
leaves it unchanged. -/
theorem C2_count_increments_per_nonfault_cycle (env : CycleEnv) (now : Nat) (m : AgentMap)
    (id : String) (st : AgentState) (h1 : m id = some st) (h2 : env.agent_get = .ok ()) :
    ((execute_agent_strategy env now m id).1 id).map AgentState.execution_count
      = some (st.execution_count + 1) := by
  simp [execute_agent_strategy, h1, h2, update_agent]

/-- Witness for C2: the non-fault cycle of C1's environment takes agent A1
from execution_count 0 to 1. -/
theorem C2_count_increments_witness :
    ((execute_agent_strategy envNoExec 100 mapA1 "A1").1 "A1").map AgentState.execution_count
      = some (stA1.execution_count + 1) :=
  C2_count_increments_per_nonfault_cycle envNoExec 100 mapA1 "A1" stA1 rfl rfl

/-- A predictor-call failure always yields the same enhanced hold decision:
_call_ai_service returns pred 0.005 without input_features, so
_enhance_decision runs on the empty feature dict and selects the hold
branch — strategy_type swap, action hold, should_execute false,
next_check_minutes 30 — whatever the prepared features, the config and the
market data were. -/
theorem predictor_failure_decision (feats : Features) (cfg : AgentConfig) (md : MarketData) :
    get_strategy_decision (.ok feats) (.error ()) cfg md
      = Decision.mk
          { strategy_type := some .swap, should_execute := false,
            next_check_minutes := some 30, action := some "hold" } [] := by
  by_cases h : (1 / 200 : ℚ) < cfg.min_profit_threshold.getD (1 / 100) <;>
    norm_num [get_strategy_decision, call_ai_service, enhance_decision,
      determine_strategy_type, calculate_confidence, assess_strategy_risk,
      determine_execution_timing, should_execute_strategy, h, min_def]

/-- C3: when the predictor call of an active agent's cycle fails (times
out), the cycle completes without propagating any exception, the status
remains active, and next_execution is set to now + 30 — the claimed value,
produced by the enhanced hold decision's next_check_minutes = 30 (the
no-opportunity tier of _determine_execution_timing), since _call_ai_service
catches the failure itself; no execution-provider call is made, the count
increments and the profit is unchanged.  The hypothesis on max_investment
mirrors the Agent model's gt=0 constraint (a zero value would make Python's
risk division raise where ℚ division is total). -/
theorem C3_predictor_failure_thirty_minute_reschedule (env : CycleEnv) (now : Nat)
    (m : AgentMap) (id : String) (st : AgentState) (feats : Features) (cfg : AgentConfig)
    (h1 : m id = some st) (hact : st.status = .active) (h2 : env.agent_get = .ok ())
    (h3 : env.ai_response
      = .ok (get_strategy_decision (.ok feats) (.error ()) cfg env.market_data))
    (_hmax : cfg.max_investment.getD 1000 ≠ 0) :
    execute_agent_strategy env now m id
      = (update_agent m id
          { st with
            last_execution := some now
            execution_count := st.execution_count + 1
            next_execution := some (now + 30) }, 0) ∧
    ((execute_agent_strategy env now m id).1 id).map AgentState.status = some .active := by
  have hdec := predictor_failure_decision feats cfg env.market_data
  have hmain : execute_agent_strategy env now m id
      = (update_agent m id
          { st with
            last_execution := some now
            execution_count := st.execution_count + 1
            next_execution := some (now + 30) }, 0) := by
    cases hs : env.save_ok <;>
      simp [execute_agent_strategy, h1, h2, h3, hdec, hs, ml_get_strategy_decision,
        execute_strategy, execute_by_type, execSwap, Decision.fields,
        registered_types, truthyS, truthyQ, truthyAmount, ExecResult.profitD,
        ExecResult.fields, failResult]
  refine ⟨hmain, ?_⟩
  rw [hmain]
  simp [update_agent, hact]

/-- Witness for C3: in envMLFail, agent A1's cycle at time 100 completes
with next_execution 130 and the status still active. -/
theorem C3_predictor_failure_thirty_minute_witness :
    execute_agent_strategy envMLFail 100 mapA1 "A1"
      = (update_agent mapA1 "A1"
          { stA1 with
            last_execution := some 100
            execution_count := stA1.execution_count + 1
            next_execution := some (100 + 30) }, 0) ∧
    ((execute_agent_strategy envMLFail 100 mapA1 "A1").1 "A1").map AgentState.status
      = some .active :=
  C3_predictor_failure_thirty_minute_reschedule envMLFail 100 mapA1 "A1" stA1 {} cfgEmpty
    rfl rfl rfl rfl (by norm_num [cfgEmpty])

/-- C6: a cycle ending in an unhandled fault changes nothing in the agent's
runtime state except next_execution, which becomes the fault time plus 30
minutes; no execution-provider call is made. -/
theorem C6_fault_cycle_frame (env : CycleEnv) (now : Nat) (m : AgentMap) (id : String)
    (st : AgentState) (h1 : m id = some st) (h2 : env.agent_get = .error ()) :
    execute_agent_strategy env now m id
      = (update_agent m id { st with next_execution := some (now + 30) }, 0) := by
  simp [execute_agent_strategy, h1, h2]

/-- Witness for C6: the faulting cycle of envFault on agent A1 at time 100
sets next_execution to 130 and leaves everything else as it was. -/
theorem C6_fault_cycle_frame_witness :
    execute_agent_strategy envFault 100 mapA1 "A1"
      = (update_agent mapA1 "A1" { stA1 with next_execution := some (100 + 30) }, 0) :=
  C6_fault_cycle_frame envFault 100 mapA1 "A1" stA1 rfl rfl

/-- The fresh runtime state create_agent installs: status created, counters
zero, next_execution one minute out. -/
def freshState (id : String) (now : Nat) : AgentState :=
  { agent_id := id, status := .created, next_execution := some (now + 1) }

/-- An active_agents table in which A1 is already registered with a state
showing prior activity (7 executions). -/
def mapA1Busy : AgentMap :=
  fun i => if i = "A1" then some { stA1 with execution_count := 7 } else none

/-- C5 counterexample: registering agent A1 while A1 is already present in
the table does not fail — it succeeds and silently replaces the existing
runtime state (execution_count 7 becomes 0). -/
theorem C5_counterexample_reregister_overwrites :
    (mapA1Busy "A1").map AgentState.execution_count = some 7 ∧
    (create_agent (.ok "w") true 50 mapA1Busy "A1").2 = .ok (freshState "A1" 50) ∧
    ((create_agent (.ok "w") true 50 mapA1Busy "A1").1 "A1").map AgentState.execution_count
      = some 0 := by
  refine ⟨rfl, ?_, ?_⟩ <;>
    simp [create_agent, freshState, update_agent, mapA1Busy, stA1]

/-- C5 amended: when wallet creation and persistence succeed, registering an
agent id always succeeds and installs (or replaces with) a fresh runtime
state having status created and a near-immediate next_execution (now + 1
minute); no already-registered check is made. -/
theorem C5_register_installs_fresh_state (m : AgentMap) (now : Nat) (id w : String) :
    create_agent (.ok w) true now m id
      = (update_agent m id (freshState id now), .ok (freshState id now)) := by
  simp [create_agent, freshState]

/-- C7: stopping a registered agent invokes the close-position operation once
per open position, in table order, then leaves open_positions empty and the
status stopped. -/
theorem C7_stop_closes_every_position (m : AgentMap) (id : String) (st : AgentState)
    (h : m id = some st) :
    stop_agent m id
      = (update_agent m id { st with current_positions := [], status := .stopped }, true,
          st.current_positions.map Prod.fst) := by
  simp [stop_agent, h]

/-- Runtime state of an agent holding two open positions. -/
def stPos : AgentState :=
  { agent_id := "A2", status := .active, next_execution := some 1,
    current_positions := [("p1", 5), ("p2", 7)] }

/-- Table holding only the two-position agent A2. -/
def mapPos : AgentMap := fun i => if i = "A2" then some stPos else none

/-- Witness for C7: stopping A2 closes p1 and p2 (one close-position call
each), empties its positions and marks it stopped. -/
theorem C7_stop_closes_every_position_witness :
    stop_agent mapPos "A2"
      = (update_agent mapPos "A2" { stPos with current_positions := [], status := .stopped },
          true, stPos.current_positions.map Prod.fst) :=
  C7_stop_closes_every_position mapPos "A2" stPos rfl

/-- Table holding only a stopped agent A1. -/
def mapStopped : AgentMap :=
  fun i => if i = "A1" then some { stA1 with status := .stopped } else none

/-- C9 counterexample: pausing the stopped agent A1 does not leave it
stopped — pause_agent sets the status to paused unconditionally. -/
theorem C9_counterexample_pause_stopped_agent :
    (mapStopped "A1").map AgentState.status = some .stopped ∧
    ((pause_agent mapStopped "A1").1 "A1").map AgentState.status = some .paused ∧
    ((pause_agent mapStopped "A1").1 "A1").map AgentState.status ≠ some .stopped := by
  refine ⟨rfl, ?_, ?_⟩ <;>
    simp [pause_agent, mapStopped, stA1, update_agent]

/-- C9 amended: pause on any registered agent sets its status to paused and
returns true regardless of the previous status (there is no active-only
guard); only an unknown id is rejected. -/
theorem C9_pause_sets_paused_unconditionally (m : AgentMap) (id : String) (st : AgentState)
    (h : m id = some st) :
    pause_agent m id = (update_agent m id { st with status := .paused }, true) := by
  simp [pause_agent, h]

/-- Witness for C9: pausing the stopped agent A1 yields the paused state. -/
theorem C9_pause_sets_paused_witness :
    pause_agent mapStopped "A1"
      = (update_agent mapStopped "A1" { { stA1 with status := .stopped } with status := .paused },
          true) :=
  C9_pause_sets_paused_unconditionally mapStopped "A1" { stA1 with status := .stopped } rfl

/-- The predictor decision of the C8 scenario: an executable swap with
should_execute true and a suggested re-check in 5 minutes. -/
def dSwapExec : Decision :=
  Decision.mk
    { strategy_type := some .swap, should_execute := true, next_check_minutes := some 5,
      from_token := some "A", to_token := some "B", amount := some 10 } []

/-- A Solana client whose swap execution succeeds with output amount 12.5,
worth a 2.5 profit on a 10-unit input at unit prices. -/
def solProfit : SolanaEnv :=
  { solNull with
    get_jupiter_route := fun _ _ _ _ => some "r",
    execute_jupiter_swap := fun _ => { success := true, output_amount := some (25 / 2) } }

/-- Cycle environment of the C8 scenario: healthy DB, predictor returning
dSwapExec, profitable execution, successful persistence. -/
def envTick : CycleEnv :=
  { agent_get := .ok (), ai_response := .ok dSwapExec, market_data := mdOne,
    solana := solProfit, save_ok := true }

/-- The empty active_agents table. -/
def emptyMap : AgentMap := fun _ => none

/-- Table after registering agent A1 at time 0. -/
def mapRegistered : AgentMap := (create_agent (.ok "w") true 0 emptyMap "A1").1

/-- Table after additionally activating A1 at time 0. -/
def mapActivated : AgentMap := (activate_agent 0 mapRegistered "A1").1

/-- C8: after registering and activating A1, a tick at time 10 with a
should_execute decision suggesting a 5-minute delay and a successful
execution of profit 2.5 leaves A1 with execution_count 1, cumulative profit
2.5, last_execution 10 and next_execution 15.  The agent was eligible for
the tick: active with next_execution 1 ≤ 10. -/
theorem C8_register_activate_tick_scenario :
    (mapActivated "A1").map AgentState.status = some .active ∧
    (mapActivated "A1").map AgentState.next_execution = some (some 1) ∧
    ((execute_agent_strategy envTick 10 mapActivated "A1").1 "A1").map
      AgentState.execution_count = some 1 ∧
    ((execute_agent_strategy envTick 10 mapActivated "A1").1 "A1").map
      AgentState.total_profit = some (5 / 2) ∧
    ((execute_agent_strategy envTick 10 mapActivated "A1").1 "A1").map
      AgentState.last_execution = some (some 10) ∧
    ((execute_agent_strategy envTick 10 mapActivated "A1").1 "A1").map
      AgentState.next_execution = some (some (10 + 5)) := by
  have hA : ¬("A" : String) = "" := by decide
  have hB : ¬("B" : String) = "" := by decide
  refine ⟨?_, ?_, ?_, ?_, ?_, ?_⟩ <;>
    norm_num [execute_agent_strategy, mapActivated, mapRegistered, emptyMap, create_agent,
      activate_agent, update_agent, envTick, dSwapExec, ml_get_strategy_decision,
      execute_strategy, execute_by_type, execSwap, registered_types, truthyS, truthyQ, truthyAmount,
      Decision.fields, solProfit, solNull, mdOne, calculate_swap_profit,
      ExecResult.profitD, ExecResult.fields, hA, hB]

/-- The loop appends one result per dispatched step, so the length of
steps_results always equals the number of executor dispatches. -/
theorem multi_hop_loop_length_eq_dispatched (env : SolanaEnv) (md : MarketData) :
    ∀ l : List Decision,
      (multi_hop_loop env md l).results.length = (multi_hop_loop env md l).dispatched := by
  intro l
  induction l with
  | nil =>
    rw [multi_hop_loop.eq_def]
    simp
  | cons s rest ih =>
    rw [multi_hop_loop.eq_def]
    cases hst : s.fields.strategy_type with
    | none => simp [hst]
    | some t =>
      by_cases ht : t ∈ registered_types
      · by_cases hs : (execute_by_type env md t s).1.successB
        · simp [hst, ht, hs, ih]
          omega
        · simp [hst, ht, hs]
      · simp [hst, ht]

/-- When some step of the list has a missing or unregistered strategy type,
the loop never reports overall success, and it dispatches at most the steps
strictly before that step. -/
theorem multi_hop_loop_bad_step (env : SolanaEnv) (md : MarketData) :
    ∀ (l : List Decision) (k : Nat) (s : Decision), l[k]? = some s →
      (∀ t, s.fields.strategy_type = some t → t ∉ registered_types) →
      (multi_hop_loop env md l).all_successful = false ∧
      (multi_hop_loop env md l).dispatched ≤ k := by
  intro l
  induction l with
  | nil => intro k s hk _; simp at hk
  | cons s0 rest ih =>
    intro k s hk hbad
    cases hst : s0.fields.strategy_type with
    | none =>
      rw [multi_hop_loop.eq_def]
      simp [hst]
    | some t =>
      by_cases ht : t ∈ registered_types
      · cases k with
        | zero =>
          simp at hk
          subst hk
          exact absurd ht (hbad t hst)
        | succ j =>
          simp at hk
          obtain ⟨ha, hd⟩ := ih j s hk hbad
          rw [multi_hop_loop.eq_def]
          by_cases hs : (execute_by_type env md t s0).1.successB
          · simp [hst, ht, hs, ha]
            omega
          · simp [hst, ht, hs]
      · rw [multi_hop_loop.eq_def]
        simp [hst, ht]

/-- C10: a multi-hop decision containing a step with a missing or
unregistered strategy_type never reports success; executors are dispatched
only for steps strictly before that step (so neither it nor any later step
is dispatched); the step contributes no entry to steps_results, whose length
— and hence completed_steps — equals the number of steps dispatched before
it. -/
theorem C10_unknown_step_aborts_before_dispatch (env : SolanaEnv) (md : MarketData)
    (steps : List Decision) (k : Nat) (s : Decision) (hk : steps[k]? = some s)
    (hbad : ∀ t, s.fields.strategy_type = some t → t ∉ registered_types) :
    (multi_hop_loop env md steps).all_successful = false ∧
    (multi_hop_loop env md steps).dispatched ≤ k ∧
    (multi_hop_loop env md steps).results.length = (multi_hop_loop env md steps).dispatched ∧
    (execute_multi_hop env md steps).1
      = ExecResult.mk
          { success := false, profit := some (multi_hop_loop env md steps).total_profit,
            completed_steps := some (multi_hop_loop env md steps).dispatched,
            total_steps := some steps.length }
          (multi_hop_loop env md steps).results := by
  obtain ⟨ha, hd⟩ := multi_hop_loop_bad_step env md steps k s hk hbad
  have hlen := multi_hop_loop_length_eq_dispatched env md steps
  have hne : ¬steps.isEmpty := by
    cases steps with
    | nil => simp at hk
    | cons a l => simp
  refine ⟨ha, hd, hlen, ?_⟩
  rw [execute_multi_hop.eq_def]
  simp [hne, ha, hlen]

/-- A step with no strategy_type key at all. -/
def stepNoType : Decision := Decision.mk {} []

/-- Witness for C10: a one-step multi-hop whose only step lacks a
strategy_type dispatches nothing, reports failure, and returns empty
steps_results with completed_steps 0. -/
theorem C10_unknown_step_witness :
    (multi_hop_loop solNull mdOne [stepNoType]).all_successful = false ∧
    (multi_hop_loop solNull mdOne [stepNoType]).dispatched ≤ 0 ∧
    (multi_hop_loop solNull mdOne [stepNoType]).results.length
      = (multi_hop_loop solNull mdOne [stepNoType]).dispatched ∧
    (execute_multi_hop solNull mdOne [stepNoType]).1
      = ExecResult.mk
          { success := false,
            profit := some (multi_hop_loop solNull mdOne [stepNoType]).total_profit,
            completed_steps := some (multi_hop_loop solNull mdOne [stepNoType]).dispatched,
            total_steps := some [stepNoType].length }
          (multi_hop_loop solNull mdOne [stepNoType]).results :=
  C10_unknown_step_aborts_before_dispatch solNull mdOne [stepNoType] 0 stepNoType rfl
    (by intro t h; simp [stepNoType, Decision.fields] at h)

/-- C4 amended: in a three-step multi-hop decision whose first step succeeds
and whose second step is dispatched and reports failure, the loop stops
after two dispatches (the third step is never dispatched), the overall
result has success = false, steps_results holds exactly the two dispatched
results, completed_steps = 2, and the returned profit is the first step's
reported profit only — the failing second step's reported profit is not
added (the loop breaks before accumulating it). -/
theorem C4_second_step_failure_sums_first_profit (env : SolanaEnv) (md : MarketData)
    (s1 s2 s3 : Decision) (t1 t2 : StrategyType)
    (h1 : s1.fields.strategy_type = some t1) (h1r : t1 ∈ registered_types)
    (h2 : s2.fields.strategy_type = some t2) (h2r : t2 ∈ registered_types)
    (hs1 : (execute_by_type env md t1 s1).1.successB = true)
    (hs2 : (execute_by_type env md t2 s2).1.successB = false) :
    multi_hop_loop env md [s1, s2, s3]
      = ⟨[(execute_by_type env md t1 s1).1, (execute_by_type env md t2 s2).1],
          (execute_by_type env md t1 s1).1.profitD, false,
          (execute_by_type env md t1 s1).2 + (execute_by_type env md t2 s2).2, 2⟩ ∧
    (execute_multi_hop env md [s1, s2, s3]).1
      = ExecResult.mk
          { success := false, profit := some (execute_by_type env md t1 s1).1.profitD,
            completed_steps := some 2, total_steps := some 3 }
          [(execute_by_type env md t1 s1).1, (execute_by_type env md t2 s2).1] := by
  have hmid : multi_hop_loop env md [s2, s3]
      = ⟨[(execute_by_type env md t2 s2).1], 0, false, (execute_by_type env md t2 s2).2, 1⟩ := by
    rw [multi_hop_loop.eq_def]
    simp [h2, h2r, hs2]
  have hloop : multi_hop_loop env md [s1, s2, s3]
      = ⟨[(execute_by_type env md t1 s1).1, (execute_by_type env md t2 s2).1],
          (execute_by_type env md t1 s1).1.profitD, false,
          (execute_by_type env md t1 s1).2 + (execute_by_type env md t2 s2).2, 2⟩ := by
    rw [multi_hop_loop.eq_def]
    simp [h1, h1r, hs1, hmid]
  refine ⟨hloop, ?_⟩
  rw [execute_multi_hop.eq_def]
  simp [hloop]

/-- A Solana client for the C4 scenario: every swap request gets a route
named after its input token; swapping from A succeeds with output 11, any
other swap fails but still reports output 15. -/
def sol4 : SolanaEnv :=
  { solNull with
    get_jupiter_route := fun ft _ _ _ => some ft,
    execute_jupiter_swap := fun r =>
      if r = "A" then { success := true, output_amount := some 11 }
      else { success := false, output_amount := some 15 } }

/-- First step of the C4 scenario: a swap that succeeds with profit 1. -/
def step4a : Decision :=
  Decision.mk
    { strategy_type := some .swap, from_token := some "A", to_token := some "B",
      amount := some 10 } []

/-- Second step of the C4 scenario: a swap that fails while reporting
profit 5 in its result dict (computed from the failed transaction's output
amount at the market prices). -/
def step4b : Decision :=
  Decision.mk
    { strategy_type := some .swap, from_token := some "C", to_token := some "D",
      amount := some 10 } []

/-- Third step of the C4 scenario; it is never dispatched. -/
def step4c : Decision :=
  Decision.mk
    { strategy_type := some .swap, from_token := some "A", to_token := some "B",
      amount := some 1 } []

/-- C4 counterexample: in a three-step multi-hop whose second step reports
failure with reported profit 5 after a first step of profit 1, the returned
profit is 1 — not 1 + 5, the sum of the first two steps' reported profits
the claim requires. -/
theorem C4_counterexample_failing_step_profit_excluded :
    (multi_hop_loop sol4 mdOne [step4a, step4b, step4c]).results.map ExecResult.profitD
      = [1, 5] ∧
    (execute_multi_hop sol4 mdOne [step4a, step4b, step4c]).1.fields.success = false ∧
    (execute_multi_hop sol4 mdOne [step4a, step4b, step4c]).1.fields.completed_steps
      = some 2 ∧
    (execute_multi_hop sol4 mdOne [step4a, step4b, step4c]).1.fields.profit = some 1 ∧
    (execute_multi_hop sol4 mdOne [step4a, step4b, step4c]).1.fields.profit
      ≠ some (1 + 5) := by
  have hA : ¬("A" : String) = "" := by decide
  have hB : ¬("B" : String) = "" := by decide
  have hC : ¬("C" : String) = "" := by decide
  have hD : ¬("D" : String) = "" := by decide
  have hCA : ¬("C" : String) = "A" := by decide
  refine ⟨?_, ?_, ?_, ?_, ?_⟩ <;>
    norm_num [execute_multi_hop, multi_hop_loop, execute_by_type, execSwap, registered_types,
      truthyS, truthyQ, truthyAmount, Decision.fields, step4a, step4b, step4c, sol4, solNull, mdOne,
      calculate_swap_profit, ExecResult.profitD, ExecResult.fields, ExecResult.successB,
      failResult, hA, hB, hC, hD, hCA]

/-- Witness for C4: the concrete three-step scenario of sol4, where the
first step succeeds and the second fails. -/
theorem C4_second_step_failure_witness :
    multi_hop_loop sol4 mdOne [step4a, step4b, step4c]
      = ⟨[(execute_by_type sol4 mdOne .swap step4a).1,
          (execute_by_type sol4 mdOne .swap step4b).1],
          (execute_by_type sol4 mdOne .swap step4a).1.profitD, false,
          (execute_by_type sol4 mdOne .swap step4a).2
            + (execute_by_type sol4 mdOne .swap step4b).2, 2⟩ ∧
    (execute_multi_hop sol4 mdOne [step4a, step4b, step4c]).1
      = ExecResult.mk
          { success := false,
            profit := some (execute_by_type sol4 mdOne .swap step4a).1.profitD,
            completed_steps := some 2, total_steps := some 3 }
          [(execute_by_type sol4 mdOne .swap step4a).1,
            (execute_by_type sol4 mdOne .swap step4b).1] := by
  have hA : ¬("A" : String) = "" := by decide
  have hB : ¬("B" : String) = "" := by decide
  have hC : ¬("C" : String) = "" := by decide
  have hD : ¬("D" : String) = "" := by decide
  have hCA : ¬("C" : String) = "A" := by decide
  exact C4_second_step_failure_sums_first_profit sol4 mdOne step4a step4b step4c .swap .swap
    rfl (by decide) rfl (by decide)
    (by norm_num [execute_by_type, execSwap, truthyS, truthyQ, truthyAmount, Decision.fields, step4a,
      sol4, solNull, mdOne, calculate_swap_profit, ExecResult.successB, ExecResult.fields,
      hA, hB])
    (by norm_num [execute_by_type, execSwap, truthyS, truthyQ, truthyAmount, Decision.fields, step4b,
      sol4, solNull, mdOne, calculate_swap_profit, ExecResult.successB, ExecResult.fields,
      hC, hD, hCA])

end DeFAI
